import Mathlib

/-!
Verification of the performance-dashboard improvement computation
(`src/performance_comparison.py`).

The computational core of the dashboard is:
  * a fixed six-row dataset built by `load_performance_data` (lines 78-89);
  * the improvements loop (lines 122-127), which for each distinct value of
    the Scenario column (in pandas first-seen order) looks up the Original
    and the Optimized row's value of the selected metric column and computes
    `((orig - opt) / orig) * 100`;
  * the aggregate `avg_improvement = improvement_df['Improvement'].mean()`
    (line 148).

Shallow embedding notes:
  * a DataFrame row becomes a `Row` structure holding the seven columns;
  * numeric cells are modelled as exact rationals (`ℚ`);
  * `.values[0]` on an empty selection raises `IndexError` in pandas; this
    is modelled by `Except PyError`, with `PyError.indexError` the single
    error (Python's `IndexError` is a subclass of `LookupError`);
  * numpy float division by zero does NOT raise: it yields `inf`, `-inf`
    or `nan` (with only a RuntimeWarning).  `PyVal` is the value domain
    `finite q | posInf | negInf | nan` and `pyDiv` models that semantics.
-/

namespace PerfDash

/-- One row of the `time_data` DataFrame (columns from lines 80-88). -/
structure Row where
  scenario : String
  version : String
  processingTime : ℚ
  memoryUsage : ℚ
  dbConnections : ℚ
  files : ℚ
  fileSizeMB : ℚ
  deriving DecidableEq, Repr

/-- The three recognized metric names offered by the selectbox (lines 96-99). -/
inductive Metric
  | processingTime
  | memoryUsage
  | dbConnections
  deriving DecidableEq, Repr

/-- Column lookup `row[metric]` for a recognized metric. -/
def getMetric : Metric → Row → ℚ
  | .processingTime, r => r.processingTime
  | .memoryUsage, r => r.memoryUsage
  | .dbConnections, r => r.dbConnections

/-- Value domain of the improvement computation: numpy float64 results,
with the three IEEE non-finite values division by zero can produce. -/
inductive PyVal
  | finite : ℚ → PyVal
  | posInf
  | negInf
  | nan
  deriving DecidableEq, Repr

/-- numpy true division of two (idealized) float64 scalars: division by
zero yields `±inf` or `nan` silently, it never raises. -/
def pyDiv (a b : ℚ) : PyVal :=
  if b = 0 then
    (if a = 0 then .nan else if 0 < a then .posInf else .negInf)
  else .finite (a / b)

/-- Multiplication by the positive constant 100 (line 126's `* 100`):
infinities and nan are preserved. -/
def pyMul100 : PyVal → PyVal
  | .finite q => .finite (q * 100)
  | .posInf => .posInf
  | .negInf => .negInf
  | .nan => .nan

/-- The one runtime error the improvements loop can raise:
`.values[0]` on an empty selection raises `IndexError`
(a `LookupError`, i.e. NotFound-class, in Python). -/
inductive PyError
  | indexError
  deriving DecidableEq, Repr

/-- `df['Scenario'].unique()` for a pandas column: distinct values in
first-seen order.  `seen` accumulates values already emitted. -/
def firstSeenAux : List String → List String → List String
  | [], _ => []
  | x :: xs, seen =>
    if x ∈ seen then firstSeenAux xs seen
    else x :: firstSeenAux xs (x :: seen)

/-- `df['Scenario'].unique()` (line 123): the distinct scenario values in
the dataset's first-seen order. -/
def uniqueScenarios (rows : List Row) : List String :=
  firstSeenAux (rows.map (·.scenario)) []

/-- The row selection `df[(df['Scenario'] == s) & (df['Version'] == v)]`
(lines 124-125): the rows matching scenario `s` and version `v`,
in input order. -/
def verFilter (rows : List Row) (s v : String) : List Row :=
  rows.filter (fun r => r.scenario == s && r.version == v)

/-- `df[(df['Scenario'] == s) & (df['Version'] == v)][metric].values[0]`
(lines 124-125): the selected metric's value of the first row matching
scenario `s` and version `v`, `none` when the selection is empty
(in which case `.values[0]` raises `IndexError`). -/
def lookupVal (rows : List Row) (s v : String) (m : Metric) : Option ℚ :=
  ((verFilter rows s v).map (getMetric m)).head?

/-- Body of one iteration of the improvements loop (lines 124-126) for
scenario `s`: fetch `orig` and `opt`, raise `IndexError` when a selection
is empty, else return `((orig - opt) / orig) * 100`. -/
def improvementFor (rows : List Row) (m : Metric) (s : String) : Except PyError PyVal :=
  match lookupVal rows s "Original" m, lookupVal rows s "Optimized" m with
  | some orig, some opt => .ok (pyMul100 (pyDiv (orig - opt) orig))
  | _, _ => .error .indexError

/-- The `improvements` list built by the loop: one `{'Scenario': s,
'Improvement': imp}` record appended per iteration, aborting at the
first raised error. -/
def computeList (ss : List String) (f : String → Except PyError PyVal) :
    Except PyError (List (String × PyVal)) :=
  match ss with
  | [] => .ok []
  | s :: rest =>
    match f s with
    | .error e => .error e
    | .ok v =>
      match computeList rest f with
      | .error e => .error e
      | .ok l => .ok ((s, v) :: l)

/-- The improvements loop (lines 122-127): for each distinct scenario in
first-seen order, the improvement record for the selected metric. -/
def computeImprovements (rows : List Row) (m : Metric) :
    Except PyError (List (String × PyVal)) :=
  computeList (uniqueScenarios rows) (improvementFor rows m)

/-- The value the loop records for scenario `s` when both lookups succeed
(first matching row of each version, per `.values[0]`). -/
def impAt (rows : List Row) (m : Metric) (s : String) : PyVal :=
  pyMul100 (pyDiv ((lookupVal rows s "Original" m).getD 0 -
                   (lookupVal rows s "Optimized" m).getD 0)
                  ((lookupVal rows s "Original" m).getD 0))

/-- The fixed dataset of `load_performance_data` (lines 80-88), row by row:
Scenario column `['Small (1 file)', 'Medium (5 files)', 'Large (10 files)'] * 2`,
Version column `['Original', 'Original', 'Original', 'Optimized', 'Optimized', 'Optimized']`,
and the five numeric columns. -/
def fixedRows : List Row :=
  [ ⟨"Small (1 file)", "Original", 2.3, 150, 5, 1, 1⟩,
    ⟨"Medium (5 files)", "Original", 12.5, 450, 25, 5, 10⟩,
    ⟨"Large (10 files)", "Original", 35.2, 1200, 50, 10, 50⟩,
    ⟨"Small (1 file)", "Optimized", 1.8, 95, 1, 1, 1⟩,
    ⟨"Medium (5 files)", "Optimized", 5.8, 180, 1, 5, 10⟩,
    ⟨"Large (10 files)", "Optimized", 12.3, 320, 1, 10, 50⟩ ]

/-- The §3 invariant of the spec's data model: every scenario appearing in
the dataset has exactly one Original row and exactly one Optimized row. -/
def Invariant (rows : List Row) : Prop :=
  ∀ s ∈ uniqueScenarios rows,
    (verFilter rows s "Original").length = 1 ∧ (verFilter rows s "Optimized").length = 1

instance (rows : List Row) : Decidable (Invariant rows) := by
  unfold Invariant; infer_instance

/-- IEEE-style addition on idealized float64 values: nan propagates and
`inf + (-inf)` is nan. -/
def pyAdd : PyVal → PyVal → PyVal
  | .nan, _ => .nan
  | _, .nan => .nan
  | .posInf, .negInf => .nan
  | .negInf, .posInf => .nan
  | .posInf, _ => .posInf
  | _, .posInf => .posInf
  | .negInf, _ => .negInf
  | _, .negInf => .negInf
  | .finite a, .finite b => .finite (a + b)

/-- Sum of a float64 series, as used by pandas `.sum()` over the
Improvement column. -/
def pySum : List PyVal → PyVal
  | [] => .finite 0
  | v :: vs => pyAdd v (pySum vs)

/-- pandas `Series.mean()` (line 148) with its default `skipna=True`:
nan entries are dropped from numerator and denominator, and the mean of an
empty (or all-nan) series is nan. -/
def pyMean (l : List PyVal) : PyVal :=
  let vals := l.filter fun v => v != PyVal.nan
  if vals.length = 0 then .nan
  else
    match pySum vals with
    | .finite q => .finite (q / vals.length)
    | .posInf => .posInf
    | .negInf => .negInf
    | .nan => .nan

/-- `avg_improvement = improvement_df['Improvement'].mean()` (line 148):
the aggregate "average improvement" figure. -/
def avgImprovement (rows : List Row) (m : Metric) : Except PyError PyVal :=
  (computeImprovements rows m).map fun l => pyMean (l.map Prod.snd)

/-- The improvements loop with the DataFrame state threaded explicitly: each
iteration reads `rows` (never writes it) and appends one record to the
accumulator, as in the source; the terminal state returns the records
together with the dataframe as the loop leaves it. -/
def computeLoopState : List String → Metric → List Row → List (String × PyVal) →
    Except PyError (List (String × PyVal) × List Row)
  | [], _, rows, acc => .ok (acc, rows)
  | s :: rest, m, rows, acc =>
    match improvementFor rows m s with
    | .error e => .error e
    | .ok v => computeLoopState rest m rows (acc ++ [(s, v)])

/-- Two rows agreeing on the Scenario column, the Version column and the
selected metric's column — the only columns the improvements loop reads. -/
def SameView (m : Metric) (r1 r2 : Row) : Prop :=
  r1.scenario = r2.scenario ∧ r1.version = r2.version ∧ getMetric m r1 = getMetric m r2

/-- A dataset violating the invariant: the Small scenario has no Optimized
row. -/
def missingRows : List Row :=
  [⟨"Small (1 file)", "Original", 2.3, 150, 5, 1, 1⟩]

/-- A dataset with two Original rows for the same scenario. -/
def dupRows : List Row :=
  [⟨"Small (1 file)", "Original", 2, 100, 5, 1, 1⟩,
   ⟨"Small (1 file)", "Original", 3, 100, 5, 1, 1⟩,
   ⟨"Small (1 file)", "Optimized", 1, 50, 1, 1, 1⟩]

/-- A dataset whose Original row carries metric value 0 in every metric
column. -/
def zeroOrigRows : List Row :=
  [⟨"Small (1 file)", "Original", 0, 0, 0, 1, 1⟩,
   ⟨"Small (1 file)", "Optimized", 1.5, 75, 1, 1, 1⟩]

/-- The fixed dataset with its rows in reversed order. -/
def fixedRowsRev : List Row := fixedRows.reverse

/-- The fixed dataset with the Files, File Size and non-selected metric
columns replaced by unrelated values; it agrees with `fixedRows` on
Scenario, Version and Processing Time. -/
def alteredRows : List Row :=
  [ ⟨"Small (1 file)", "Original", 2.3, 999, 7, 42, 13⟩,
    ⟨"Medium (5 files)", "Original", 12.5, 888, 8, 41, 12⟩,
    ⟨"Large (10 files)", "Original", 35.2, 777, 9, 40, 11⟩,
    ⟨"Small (1 file)", "Optimized", 1.8, 666, 10, 39, 10⟩,
    ⟨"Medium (5 files)", "Optimized", 5.8, 555, 11, 38, 9⟩,
    ⟨"Large (10 files)", "Optimized", 12.3, 444, 12, 37, 8⟩ ]

theorem mem_firstSeenAux (l : List String) (s : String) :
    ∀ seen, (s ∈ firstSeenAux l seen ↔ s ∈ l ∧ s ∉ seen) := by
  induction l with
  | nil => intro seen; simp [firstSeenAux]
  | cons x xs ih =>
    intro seen
    by_cases hx : x ∈ seen
    · rw [firstSeenAux, if_pos hx, ih seen]
      simp only [List.mem_cons]
      constructor
      · rintro ⟨h1, h2⟩
        exact ⟨Or.inr h1, h2⟩
      · rintro ⟨h1 | h1, h2⟩
        · exact absurd (h1 ▸ hx) h2
        · exact ⟨h1, h2⟩
    · rw [firstSeenAux, if_neg hx]
      simp only [List.mem_cons, ih (x :: seen)]
      constructor
      · rintro (h | ⟨h1, h2⟩)
        · exact ⟨Or.inl h, h ▸ hx⟩
        · simp only [List.mem_cons, not_or] at h2
          exact ⟨Or.inr h1, h2.2⟩
      · rintro ⟨h1 | h1, h2⟩
        · exact Or.inl h1
        · by_cases hsx : s = x
          · exact Or.inl hsx
          · exact Or.inr ⟨h1, by simp [List.mem_cons, hsx, h2]⟩

theorem nodup_firstSeenAux (l : List String) : ∀ seen, (firstSeenAux l seen).Nodup := by
  induction l with
  | nil => intro seen; simp [firstSeenAux]
  | cons x xs ih =>
    intro seen
    by_cases hx : x ∈ seen
    · rw [firstSeenAux, if_pos hx]; exact ih seen
    · rw [firstSeenAux, if_neg hx]
      refine List.nodup_cons.mpr ⟨?_, ih (x :: seen)⟩
      intro hmem
      exact ((mem_firstSeenAux xs x (x :: seen)).mp hmem).2 (List.mem_cons_self x seen)

theorem mem_uniqueScenarios (rows : List Row) (s : String) :
    s ∈ uniqueScenarios rows ↔ s ∈ rows.map (·.scenario) := by
  rw [uniqueScenarios, mem_firstSeenAux]
  simp

theorem computeList_ok (ss : List String) (f : String → Except PyError PyVal)
    (g : String → PyVal) (h : ∀ s ∈ ss, f s = .ok (g s)) :
    computeList ss f = .ok (ss.map fun s => (s, g s)) := by
  induction ss with
  | nil => rfl
  | cons s rest ih =>
    rw [computeList, h s (List.mem_cons_self s rest),
      ih (fun t ht => h t (List.mem_cons_of_mem s ht))]
    rfl

theorem computeList_fst (ss : List String) (f : String → Except PyError PyVal)
    (l : List (String × PyVal)) (h : computeList ss f = .ok l) :
    l.map Prod.fst = ss := by
  induction ss generalizing l with
  | nil => cases h; rfl
  | cons s rest ih =>
    rw [computeList] at h
    cases hf : f s with
    | error e => rw [hf] at h; cases h
    | ok v =>
      rw [hf] at h
      cases hr : computeList rest f with
      | error e => rw [hr] at h; cases h
      | ok l' =>
        rw [hr] at h
        cases h
        simpa using ih l' hr

theorem computeList_error (ss : List String) (f : String → Except PyError PyVal)
    (s : String) (hs : s ∈ ss) (hf : f s = .error .indexError) :
    computeList ss f = .error .indexError := by
  induction ss with
  | nil => cases hs
  | cons x rest ih =>
    rw [computeList]
    cases hfx : f x with
    | error e => cases e; rfl
    | ok v =>
      rcases List.mem_cons.mp hs with h | h
      · rw [h] at hf; rw [hf] at hfx; cases hfx
      · rw [ih h]

theorem improvementFor_eq_impAt (rows : List Row) (m : Metric) (s : String) (a b : ℚ)
    (ha : lookupVal rows s "Original" m = some a)
    (hb : lookupVal rows s "Optimized" m = some b) :
    improvementFor rows m s = .ok (impAt rows m s) := by
  rw [improvementFor, ha, hb, impAt, ha, hb]
  rfl

theorem improvementFor_error (rows : List Row) (m : Metric) (s : String)
    (h : lookupVal rows s "Original" m = none ∨ lookupVal rows s "Optimized" m = none) :
    improvementFor rows m s = .error .indexError := by
  rw [improvementFor]
  rcases h with h | h
  · rw [h]
  · rw [h]
    cases hx : lookupVal rows s "Original" m <;> rfl

theorem computeImprovements_ok (rows : List Row) (m : Metric)
    (h : ∀ s ∈ uniqueScenarios rows,
      (lookupVal rows s "Original" m).isSome ∧ (lookupVal rows s "Optimized" m).isSome) :
    computeImprovements rows m =
      .ok ((uniqueScenarios rows).map fun s => (s, impAt rows m s)) := by
  apply computeList_ok
  intro s hs
  obtain ⟨h1, h2⟩ := h s hs
  obtain ⟨a, ha⟩ := Option.isSome_iff_exists.mp h1
  obtain ⟨b, hb⟩ := Option.isSome_iff_exists.mp h2
  exact improvementFor_eq_impAt rows m s a b ha hb

theorem lookup_map_self (l : List String) (f : String → PyVal) (s : String) :
    ((l.map fun x => (x, f x)).lookup s) = if s ∈ l then some (f s) else none := by
  induction l with
  | nil => rfl
  | cons x xs ih =>
    simp only [List.map_cons, List.lookup]
    by_cases hsx : s = x
    · subst hsx; simp
    · have hbx : (s == x) = false := beq_eq_false_iff_ne.mpr hsx
      rw [hbx]
      simp [ih, List.mem_cons, hsx]

theorem invariant_lookup (rows : List Row) (m : Metric) (hinv : Invariant rows)
    (s : String) (hs : s ∈ uniqueScenarios rows) :
    ∃ ro rt, verFilter rows s "Original" = [ro] ∧ verFilter rows s "Optimized" = [rt] ∧
      lookupVal rows s "Original" m = some (getMetric m ro) ∧
      lookupVal rows s "Optimized" m = some (getMetric m rt) := by
  obtain ⟨h1, h2⟩ := hinv s hs
  obtain ⟨ro, hro⟩ := List.length_eq_one.mp h1
  obtain ⟨rt, hrt⟩ := List.length_eq_one.mp h2
  exact ⟨ro, rt, hro, hrt, by simp [lookupVal, hro], by simp [lookupVal, hrt]⟩

theorem impAt_eq_finite (rows : List Row) (m : Metric) (s : String) (a b : ℚ)
    (ha : lookupVal rows s "Original" m = some a)
    (hb : lookupVal rows s "Optimized" m = some b) (hnz : a ≠ 0) :
    impAt rows m s = .finite ((a - b) / a * 100) := by
  rw [impAt, ha, hb]
  simp [pyDiv, pyMul100, hnz]

/-- C1: for every dataset satisfying the one-Original/one-Optimized-per-scenario
invariant, with the Original value of the selected metric nonzero (the claim's
formula `(orig - opt) / orig * 100` presupposes a nonzero divisor; the zero
case is the subject of C3), the computation succeeds and records, for each
distinct scenario, exactly `(orig - opt) / orig * 100`, where `orig` and `opt`
are the metric values of that scenario's Original and Optimized rows. -/
theorem C1_improvement_formula (rows : List Row) (m : Metric)
    (hinv : Invariant rows)
    (hnz : ∀ s ∈ uniqueScenarios rows, ∀ r ∈ verFilter rows s "Original", getMetric m r ≠ 0) :
    ∃ l, computeImprovements rows m = .ok l ∧
      ∀ s ∈ uniqueScenarios rows,
        ∀ ro ∈ verFilter rows s "Original", ∀ rt ∈ verFilter rows s "Optimized",
          l.lookup s =
            some (.finite ((getMetric m ro - getMetric m rt) / getMetric m ro * 100)) := by
  have hsome : ∀ s ∈ uniqueScenarios rows,
      (lookupVal rows s "Original" m).isSome ∧ (lookupVal rows s "Optimized" m).isSome := by
    intro s hs
    obtain ⟨ro, rt, _, _, h3, h4⟩ := invariant_lookup rows m hinv s hs
    rw [h3, h4]
    exact ⟨rfl, rfl⟩
  refine ⟨_, computeImprovements_ok rows m hsome, ?_⟩
  intro s hs ro hro rt hrt
  obtain ⟨ro', rt', hf1, hf2, h3, h4⟩ := invariant_lookup rows m hinv s hs
  rw [hf1, List.mem_singleton] at hro
  rw [hf2, List.mem_singleton] at hrt
  subst hro; subst hrt
  rw [lookup_map_self, if_pos hs,
    impAt_eq_finite rows m s _ _ h3 h4
      (hnz s hs ro (by rw [hf1]; exact List.mem_singleton_self ro))]

/-- Witness for C1: the fixed dataset with metric Processing Time satisfies
both hypotheses. -/
theorem C1_improvement_formula_witness :
    ∃ l, computeImprovements fixedRows .processingTime = .ok l ∧
      ∀ s ∈ uniqueScenarios fixedRows,
        ∀ ro ∈ verFilter fixedRows s "Original", ∀ rt ∈ verFilter fixedRows s "Optimized",
          l.lookup s =
            some (.finite ((getMetric .processingTime ro - getMetric .processingTime rt) /
              getMetric .processingTime ro * 100)) :=
  C1_improvement_formula fixedRows .processingTime
    (of_decide_eq_true (by with_unfolding_all rfl))
    (of_decide_eq_true (by with_unfolding_all rfl))

/-- C2: on the fixed dataset the per-scenario improvement percentages are
≈21.74 / ≈53.60 / ≈65.06 for Processing Time (s), ≈36.67 / 60.0 / ≈73.33 for
Memory Usage (MB), and 80.0 / 96.0 / 98.0 for DB Connections, for scenarios
Small, Medium, Large respectively. -/
theorem C2_fixed_dataset_values :
    (∃ a b c : ℚ,
      computeImprovements fixedRows .processingTime =
        .ok [("Small (1 file)", .finite a), ("Medium (5 files)", .finite b),
             ("Large (10 files)", .finite c)] ∧
      |a - 21.74| < 1/100 ∧ |b - 53.60| < 1/100 ∧ |c - 65.06| < 1/100) ∧
    (∃ a b c : ℚ,
      computeImprovements fixedRows .memoryUsage =
        .ok [("Small (1 file)", .finite a), ("Medium (5 files)", .finite b),
             ("Large (10 files)", .finite c)] ∧
      |a - 36.67| < 1/100 ∧ b = 60 ∧ |c - 73.33| < 1/100) ∧
    computeImprovements fixedRows .dbConnections =
      .ok [("Small (1 file)", .finite 80), ("Medium (5 files)", .finite 96),
           ("Large (10 files)", .finite 98)] := by
  refine ⟨⟨500/23, 268/5, 5725/88, by with_unfolding_all rfl, ?_, ?_, ?_⟩,
         ⟨110/3, 60, 220/3, by with_unfolding_all rfl, ?_, rfl, ?_⟩,
         by with_unfolding_all rfl⟩ <;>
    rw [abs_sub_lt_iff] <;> constructor <;> norm_num

/-- C7: whenever the improvements loop succeeds it emits records keyed exactly
by the distinct scenarios in the dataset's first-seen order (which never
repeats a scenario); for the fixed dataset that order is Small, Medium,
Large. -/
theorem C7_record_order :
    (∀ (rows : List Row) (m : Metric) (l : List (String × PyVal)),
      computeImprovements rows m = .ok l → l.map Prod.fst = uniqueScenarios rows) ∧
    (∀ rows : List Row, (uniqueScenarios rows).Nodup) ∧
    uniqueScenarios fixedRows =
      ["Small (1 file)", "Medium (5 files)", "Large (10 files)"] :=
  ⟨fun rows m l h => computeList_fst _ _ _ h,
   fun rows => nodup_firstSeenAux _ _,
   by with_unfolding_all rfl⟩

/-- Witness for C7's universally quantified part, at the fixed dataset with
metric Processing Time. -/
theorem C7_record_order_witness :
    ([("Small (1 file)", PyVal.finite (500/23)), ("Medium (5 files)", PyVal.finite (268/5)),
      ("Large (10 files)", PyVal.finite (5725/88))].map Prod.fst) = uniqueScenarios fixedRows :=
  C7_record_order.1 fixedRows .processingTime _ (by with_unfolding_all rfl)

/-- C4: a dataset where a scenario present in the data lacks its Original or
its Optimized row makes the computation fail with the error raised by
`.values[0]` on an empty selection (Python's `IndexError`, a subclass of
`LookupError`, i.e. a NotFound-class error), rather than defaulting that
scenario's improvement to zero. -/
theorem C4_missing_row_error (rows : List Row) (m : Metric) (s : String)
    (hs : s ∈ uniqueScenarios rows)
    (hmiss : verFilter rows s "Original" = [] ∨ verFilter rows s "Optimized" = []) :
    computeImprovements rows m = .error .indexError := by
  apply computeList_error _ _ s hs
  apply improvementFor_error
  rcases hmiss with h | h
  · exact Or.inl (by simp [lookupVal, h])
  · exact Or.inr (by simp [lookupVal, h])

/-- Witness for C4: the one-row dataset missing its Optimized row errors. -/
theorem C4_missing_row_error_witness :
    computeImprovements missingRows .processingTime = .error .indexError :=
  C4_missing_row_error missingRows .processingTime "Small (1 file)"
    (of_decide_eq_true (by with_unfolding_all rfl))
    (Or.inr (of_decide_eq_true (by with_unfolding_all rfl)))

theorem impAt_eq (rows : List Row) (m : Metric) (s : String) (a b : ℚ)
    (ha : lookupVal rows s "Original" m = some a)
    (hb : lookupVal rows s "Optimized" m = some b) :
    impAt rows m s = pyMul100 (pyDiv (a - b) a) := by
  rw [impAt, ha, hb]
  rfl

theorem lookupVal_head (rows : List Row) (s v : String) (m : Metric) (r : Row)
    (h : (verFilter rows s v).head? = some r) :
    lookupVal rows s v m = some (getMetric m r) := by
  rw [lookupVal, List.head?_map, h]
  rfl

/-- C9: duplicate version rows for a scenario raise no error: as long as every
scenario present in the data has at least one Original row and at least one
Optimized row (in particular when it has several of either), the computation
succeeds, and each scenario's improvement is computed from the first matching
row of each version in input order, ignoring the rest. -/
theorem C9_first_match_wins (rows : List Row) (m : Metric)
    (h : ∀ s ∈ uniqueScenarios rows,
      verFilter rows s "Original" ≠ [] ∧ verFilter rows s "Optimized" ≠ []) :
    ∃ l, computeImprovements rows m = .ok l ∧
      ∀ s ∈ uniqueScenarios rows, ∀ ro rt : Row,
        (verFilter rows s "Original").head? = some ro →
        (verFilter rows s "Optimized").head? = some rt →
        l.lookup s =
          some (pyMul100 (pyDiv (getMetric m ro - getMetric m rt) (getMetric m ro))) := by
  have hsome : ∀ s ∈ uniqueScenarios rows,
      (lookupVal rows s "Original" m).isSome ∧ (lookupVal rows s "Optimized" m).isSome := by
    intro s hs
    obtain ⟨h1, h2⟩ := h s hs
    constructor
    · rw [lookupVal, List.head?_map]
      cases hh : (verFilter rows s "Original").head? with
      | none => exact absurd (List.head?_eq_none_iff.mp hh) h1
      | some r => rfl
    · rw [lookupVal, List.head?_map]
      cases hh : (verFilter rows s "Optimized").head? with
      | none => exact absurd (List.head?_eq_none_iff.mp hh) h2
      | some r => rfl
  refine ⟨_, computeImprovements_ok rows m hsome, ?_⟩
  intro s hs ro rt hro hrt
  rw [lookup_map_self, if_pos hs,
    impAt_eq rows m s _ _ (lookupVal_head rows s "Original" m ro hro)
      (lookupVal_head rows s "Optimized" m rt hrt)]

/-- Witness for C9: on the dataset with a duplicated Original row the
computation succeeds (using the first Original row, value 2). -/
theorem C9_first_match_wins_witness :
    ∃ l, computeImprovements dupRows .processingTime = .ok l ∧
      ∀ s ∈ uniqueScenarios dupRows, ∀ ro rt : Row,
        (verFilter dupRows s "Original").head? = some ro →
        (verFilter dupRows s "Optimized").head? = some rt →
        l.lookup s =
          some (pyMul100 (pyDiv (getMetric .processingTime ro - getMetric .processingTime rt)
            (getMetric .processingTime ro))) :=
  C9_first_match_wins dupRows .processingTime (of_decide_eq_true (by with_unfolding_all rfl))

/-- Counterexample to C3 as stated: with an Original value of exactly zero the
computation does not fail with any error; it silently returns negative
infinity (numpy float division by zero only warns). -/
theorem C3_counterexample :
    computeImprovements zeroOrigRows .processingTime = .ok [("Small (1 file)", .negInf)] ∧
    ∀ e : PyError, computeImprovements zeroOrigRows .processingTime ≠ .error e := by
  have h : computeImprovements zeroOrigRows .processingTime =
      .ok [("Small (1 file)", .negInf)] := by with_unfolding_all rfl
  exact ⟨h, fun e he => by rw [h] at he; cases he⟩

/-- C3 amended: when the Original value of the selected metric is zero for a
scenario (and every scenario present has both version rows, so the lookups
succeed), the computation raises nothing: it silently records a non-finite
value for that scenario — +inf, -inf, or nan according to the sign of the
Optimized value — as numpy float division by zero does. -/
theorem C3_zero_orig_nonfinite (rows : List Row) (m : Metric)
    (hall : ∀ t ∈ uniqueScenarios rows,
      (lookupVal rows t "Original" m).isSome ∧ (lookupVal rows t "Optimized" m).isSome)
    (s : String) (hs : s ∈ uniqueScenarios rows)
    (hz : lookupVal rows s "Original" m = some 0) :
    ∃ l, computeImprovements rows m = .ok l ∧
      ∃ v, l.lookup s = some v ∧ (v = .posInf ∨ v = .negInf ∨ v = .nan) := by
  refine ⟨_, computeImprovements_ok rows m hall, ?_⟩
  rw [lookup_map_self, if_pos hs]
  obtain ⟨b, hb⟩ := Option.isSome_iff_exists.mp (hall s hs).2
  refine ⟨impAt rows m s, rfl, ?_⟩
  rw [impAt_eq rows m s 0 b hz hb]
  rcases lt_trichotomy b 0 with hlt | heq | hgt
  · exact Or.inl (by simp [pyDiv, pyMul100, zero_sub, neg_eq_zero, neg_pos, hlt, hlt.ne])
  · subst heq
    exact Or.inr (Or.inr (by simp [pyDiv, pyMul100]))
  · exact Or.inr (Or.inl
      (by simp [pyDiv, pyMul100, zero_sub, neg_eq_zero, neg_pos, hgt.ne', hgt.not_lt]))

/-- Witness for the amended C3, at the zero-Original dataset. -/
theorem C3_zero_orig_nonfinite_witness :
    ∃ l, computeImprovements zeroOrigRows .processingTime = .ok l ∧
      ∃ v, l.lookup "Small (1 file)" = some v ∧
        (v = PyVal.posInf ∨ v = PyVal.negInf ∨ v = PyVal.nan) :=
  C3_zero_orig_nonfinite zeroOrigRows .processingTime
    (of_decide_eq_true (by with_unfolding_all rfl))
    "Small (1 file)"
    (of_decide_eq_true (by with_unfolding_all rfl))
    (by with_unfolding_all rfl)

theorem verFilter_perm (rows rows' : List Row) (s v : String) (h : rows.Perm rows') :
    (verFilter rows s v).Perm (verFilter rows' s v) :=
  h.filter _

theorem invariant_perm (rows rows' : List Row) (h : rows.Perm rows')
    (hinv : Invariant rows) : Invariant rows' := by
  intro s hs
  have hs' : s ∈ uniqueScenarios rows := by
    rw [mem_uniqueScenarios] at hs ⊢
    exact ((h.map (·.scenario)).mem_iff).mpr hs
  obtain ⟨h1, h2⟩ := hinv s hs'
  constructor
  · rw [← (verFilter_perm rows rows' s "Original" h).length_eq]; exact h1
  · rw [← (verFilter_perm rows rows' s "Optimized" h).length_eq]; exact h2

theorem invariant_isSome (rows : List Row) (m : Metric) (hinv : Invariant rows) :
    ∀ s ∈ uniqueScenarios rows,
      (lookupVal rows s "Original" m).isSome ∧ (lookupVal rows s "Optimized" m).isSome := by
  intro s hs
  obtain ⟨ro, rt, _, _, h3, h4⟩ := invariant_lookup rows m hinv s hs
  rw [h3, h4]
  exact ⟨rfl, rfl⟩

/-- C6: permuting the dataset's rows never changes any scenario's improvement:
grouping is by scenario identity, not by position. -/
theorem C6_order_invariance (rows rows' : List Row) (m : Metric)
    (hperm : rows.Perm rows') (hinv : Invariant rows) :
    ∃ l l', computeImprovements rows m = .ok l ∧ computeImprovements rows' m = .ok l' ∧
      ∀ s : String, l.lookup s = l'.lookup s := by
  have hinv' := invariant_perm rows rows' hperm hinv
  refine ⟨_, _, computeImprovements_ok rows m (invariant_isSome rows m hinv),
    computeImprovements_ok rows' m (invariant_isSome rows' m hinv'), ?_⟩
  intro s
  rw [lookup_map_self, lookup_map_self]
  have hmem : s ∈ uniqueScenarios rows ↔ s ∈ uniqueScenarios rows' := by
    rw [mem_uniqueScenarios, mem_uniqueScenarios]
    exact (hperm.map (·.scenario)).mem_iff
  by_cases hs : s ∈ uniqueScenarios rows
  · rw [if_pos hs, if_pos (hmem.mp hs)]
    obtain ⟨ro, rt, hf1, hf2, h3, h4⟩ := invariant_lookup rows m hinv s hs
    have hf1' : verFilter rows' s "Original" = [ro] := by
      have hp := verFilter_perm rows rows' s "Original" hperm
      rw [hf1] at hp
      exact hp.singleton_eq.symm
    have hf2' : verFilter rows' s "Optimized" = [rt] := by
      have hp := verFilter_perm rows rows' s "Optimized" hperm
      rw [hf2] at hp
      exact hp.singleton_eq.symm
    have h3' : lookupVal rows' s "Original" m = some (getMetric m ro) := by
      simp [lookupVal, hf1']
    have h4' : lookupVal rows' s "Optimized" m = some (getMetric m rt) := by
      simp [lookupVal, hf2']
    rw [impAt_eq rows m s _ _ h3 h4, impAt_eq rows' m s _ _ h3' h4']
  · rw [if_neg hs, if_neg (fun h => hs (hmem.mpr h))]

/-- Witness for C6: the fixed dataset against its row-reversed permutation. -/
theorem C6_order_invariance_witness :
    ∃ l l', computeImprovements fixedRows .processingTime = .ok l ∧
      computeImprovements fixedRowsRev .processingTime = .ok l' ∧
      ∀ s : String, l.lookup s = l'.lookup s :=
  C6_order_invariance fixedRows fixedRowsRev .processingTime
    (fixedRows.reverse_perm).symm
    (of_decide_eq_true (by with_unfolding_all rfl))

theorem forall₂_filter_congr {R : Row → Row → Prop} (p : Row → Bool)
    (hp : ∀ a b, R a b → p a = p b) :
    ∀ {l1 l2 : List Row}, List.Forall₂ R l1 l2 →
      List.Forall₂ R (l1.filter p) (l2.filter p) := by
  intro l1 l2 h
  induction h with
  | nil => exact .nil
  | @cons a b l1' l2' hab htail ih =>
    rw [List.filter_cons, List.filter_cons, ← hp a b hab]
    by_cases hpa : p a = true
    · rw [if_pos hpa, if_pos hpa]
      exact .cons hab ih
    · rw [if_neg hpa, if_neg hpa]
      exact ih

theorem forall₂_map_congr {R : Row → Row → Prop} (f g : Row → ℚ)
    (hfg : ∀ a b, R a b → f a = g b) :
    ∀ {l1 l2 : List Row}, List.Forall₂ R l1 l2 → l1.map f = l2.map g := by
  intro l1 l2 h
  induction h with
  | nil => rfl
  | @cons a b l1' l2' hab htail ih =>
    rw [List.map_cons, List.map_cons, hfg a b hab, ih]

theorem forall₂_scenario_map (m : Metric) :
    ∀ {l1 l2 : List Row}, List.Forall₂ (SameView m) l1 l2 →
      l1.map (·.scenario) = l2.map (·.scenario) := by
  intro l1 l2 h
  induction h with
  | nil => rfl
  | @cons a b l1' l2' hab htail ih =>
    rw [List.map_cons, List.map_cons, hab.1, ih]

theorem computeList_congr (ss : List String) (f g : String → Except PyError PyVal)
    (h : ∀ s ∈ ss, f s = g s) : computeList ss f = computeList ss g := by
  induction ss with
  | nil => rfl
  | cons s rest ih =>
    rw [computeList, computeList, h s (List.mem_cons_self s rest),
      ih (fun t ht => h t (List.mem_cons_of_mem s ht))]

/-- C10: the result depends only on the Scenario column, the Version column
and the selected metric's column: two datasets agreeing on those (row by row)
produce identical results, whatever the Files, File Size and non-selected
metric columns hold. -/
theorem C10_noninterference (rows1 rows2 : List Row) (m : Metric)
    (h : List.Forall₂ (SameView m) rows1 rows2) :
    computeImprovements rows1 m = computeImprovements rows2 m := by
  have huniq : uniqueScenarios rows1 = uniqueScenarios rows2 := by
    rw [uniqueScenarios, uniqueScenarios, forall₂_scenario_map m h]
  have hlook : ∀ s v, lookupVal rows1 s v m = lookupVal rows2 s v m := by
    intro s v
    rw [lookupVal, lookupVal, verFilter, verFilter]
    have hfilt := forall₂_filter_congr (fun r => r.scenario == s && r.version == v)
      (fun a b hab => by simp only [hab.1, hab.2.1]) h
    rw [forall₂_map_congr (getMetric m) (getMetric m) (fun a b hab => hab.2.2) hfilt]
  have himp : ∀ s, improvementFor rows1 m s = improvementFor rows2 m s := by
    intro s
    rw [improvementFor, improvementFor, hlook s "Original", hlook s "Optimized"]
  rw [computeImprovements, computeImprovements, huniq]
  exact computeList_congr _ _ _ (fun s _ => himp s)

/-- Witness for C10: the fixed dataset against the dataset with all columns
other than Scenario, Version and Processing Time replaced. -/
theorem C10_noninterference_witness :
    computeImprovements fixedRows .processingTime =
      computeImprovements alteredRows .processingTime :=
  C10_noninterference fixedRows alteredRows .processingTime
    (.cons ⟨rfl, rfl, rfl⟩ (.cons ⟨rfl, rfl, rfl⟩ (.cons ⟨rfl, rfl, rfl⟩
      (.cons ⟨rfl, rfl, rfl⟩ (.cons ⟨rfl, rfl, rfl⟩ (.cons ⟨rfl, rfl, rfl⟩ .nil))))))

theorem filter_ne_nan_finites (qs : List ℚ) :
    (qs.map PyVal.finite).filter (fun v => v != PyVal.nan) = qs.map PyVal.finite := by
  induction qs with
  | nil => rfl
  | cons q rest ih =>
    rw [List.map_cons, List.filter_cons, if_pos (by simp), ih]

theorem pySum_finites (qs : List ℚ) :
    pySum (qs.map PyVal.finite) = .finite qs.sum := by
  induction qs with
  | nil => rfl
  | cons q rest ih =>
    rw [List.map_cons, pySum, ih, List.sum_cons]
    rfl

theorem pyMean_finites (qs : List ℚ) (hq : qs ≠ []) :
    pyMean (qs.map PyVal.finite) = .finite (qs.sum / qs.length) := by
  rw [pyMean]
  simp only [filter_ne_nan_finites, List.length_map, pySum_finites]
  rw [if_neg (fun h => hq (List.length_eq_zero.mp h))]

/-- C5: the "average improvement" figure is the unweighted arithmetic mean of
the per-scenario improvement percentages (whenever they are all finite), and
for the fixed dataset with metric Processing Time it is ≈46.8. -/
theorem C5_average :
    (∀ (rows : List Row) (m : Metric) (l : List (String × PyVal)) (qs : List ℚ),
      computeImprovements rows m = .ok l →
      l.map Prod.snd = qs.map PyVal.finite → qs ≠ [] →
      avgImprovement rows m = .ok (.finite (qs.sum / qs.length))) ∧
    ∃ q : ℚ, avgImprovement fixedRows .processingTime = .ok (.finite q) ∧
      |q - 46.8| < 1/100 := by
  constructor
  · intro rows m l qs hok hsnd hq
    rw [avgImprovement, hok]
    show Except.ok (pyMean (l.map Prod.snd)) = _
    rw [hsnd, pyMean_finites qs hq]
  · refine ⟨(500/23 + (268/5 + (5725/88 + 0))) / 3, by with_unfolding_all rfl, ?_⟩
    rw [abs_sub_lt_iff]
    constructor <;> norm_num

/-- Witness for C5's universally quantified part, at the fixed dataset with
metric Processing Time. -/
theorem C5_average_witness :
    avgImprovement fixedRows .processingTime =
      .ok (.finite (([(500:ℚ)/23, 268/5, 5725/88].sum) / ([(500:ℚ)/23, 268/5, 5725/88].length))) :=
  C5_average.1 fixedRows .processingTime
    [("Small (1 file)", .finite (500/23)), ("Medium (5 files)", .finite (268/5)),
     ("Large (10 files)", .finite (5725/88))]
    [500/23, 268/5, 5725/88]
    (by with_unfolding_all rfl) rfl (List.cons_ne_nil _ _)

theorem computeLoopState_eq (ss : List String) (m : Metric) (rows : List Row) :
    ∀ acc, computeLoopState ss m rows acc =
      (computeList ss (improvementFor rows m)).map fun l => (acc ++ l, rows) := by
  induction ss with
  | nil => intro acc; simp [computeLoopState, computeList, Except.map]
  | cons s rest ih =>
    intro acc
    rw [computeLoopState, computeList]
    cases improvementFor rows m s with
    | error e => rfl
    | ok v =>
      show computeLoopState rest m rows (acc ++ [(s, v)]) = _
      rw [ih (acc ++ [(s, v)])]
      cases computeList rest (improvementFor rows m) with
      | error e => rfl
      | ok l => simp [Except.map]

/-- C8: the computation is a pure, deterministic function of the dataset and
the metric: two invocations with the same inputs yield identical results, and
running the loop with the DataFrame state threaded explicitly ends with the
input dataset unchanged, alongside the same records. -/
theorem C8_pure_deterministic (rows : List Row) (m : Metric) :
    computeImprovements rows m = computeImprovements rows m ∧
    computeLoopState (uniqueScenarios rows) m rows [] =
      (computeImprovements rows m).map fun l => (l, rows) := by
  refine ⟨rfl, ?_⟩
  rw [computeLoopState_eq (uniqueScenarios rows) m rows []]
  rfl

end PerfDash
